import Mathlib

/-!
Shallow embedding of the `twba_reqwest_backoff` crate (src/lib.rs, src/prelude.rs).

Modelling conventions:
- machine integers are `Nat`/`Int`; the one place the source performs a lossy
  cast (`duration.num_seconds() as u64`, an `i64 -> u64` two's-complement cast)
  is modelled as `Int.emod` by `2 ^ 64`;
- `u64::pow` (used as `GOOGLE_BASE_BACKOFF_TIME_S.pow(attempt)`) checks for
  overflow: on overflow it does not produce the mathematical power (it aborts
  in debug builds and wraps in release builds); the model uses the checked
  semantics and surfaces overflow as an abnormal-termination outcome;
- fallible code returns a `RunResult` value: `ok`, a structured error
  (`ReqwestBackoffError`), or abnormal termination (`RunResult.panicked`,
  carrying the abort message) for `Option::unwrap` on `None` and for
  arithmetic overflow;
- the ambient clock (`chrono::Local::now().naive_utc().and_utc()`), an implicit
  input of `get_backoff_time`, becomes an explicit parameter `now : Int`
  (seconds since the Unix epoch, at whole-second granularity); the retry loop
  reads the clock once per backoff computation, so the loop takes a function
  `clock : Nat -> Int` giving the clock value observed at each attempt;
- the HTTP transport is an oracle `env : Nat -> Except Nat Response`: the
  result of the i-th execution of the request (1-indexed), either a response
  or a transport-level `reqwest::Error` (represented by a `Nat` token);
- of a `reqwest::Response` only the fields the crate inspects are modelled:
  the status code and the raw bytes of the `Ratelimit-Reset` header;
- of a `reqwest::Request` only what the crate inspects: the URL host
  (`url::Host`: a domain string, an IPv4 address or an IPv6 address, addresses
  abstracted to `Nat`) and whether `Request::try_clone` succeeds (it succeeds
  exactly when the body, if any, is not a stream).
-/

namespace ReqwestBackoff

/-- `const MAX_BACKOFF_ATTEMPTS: u32 = 50;` (src/lib.rs:9). -/
def MAX_BACKOFF_ATTEMPTS : Nat := 50

/-- `const MAX_BACKOFF_ATTEMPTS_GOOGLE: u32 = 50;` (src/lib.rs:10). -/
def MAX_BACKOFF_ATTEMPTS_GOOGLE : Nat := 50

/-- `const MAX_BACKOFF_ATTEMPTS_TWITCH: u32 = 50;` (src/lib.rs:11). -/
def MAX_BACKOFF_ATTEMPTS_TWITCH : Nat := 50

/-- `const GOOGLE_BASE_BACKOFF_TIME_S: u64 = 2;` (src/lib.rs:13). -/
def GOOGLE_BASE_BACKOFF_TIME_S : Nat := 2

/-- `const GOOGLE_MAX_BACKOFF_TIME_S: u64 = 3600;` (src/lib.rs:14). -/
def GOOGLE_MAX_BACKOFF_TIME_S : Nat := 3600

/-- `enum HostType { Twitch, Google, Youtube, Other }` (src/lib.rs:53-59). -/
inductive HostType where
  | Twitch
  | Google
  | Youtube
  | Other
  deriving DecidableEq, Repr

/-- `enum ReqwestBackoffError` (src/lib.rs:18-26).  The `Reqwest` variant
wraps a transport error (abstracted to a `Nat` token); the `Other` variant
wraps a boxed error, represented by its display message. -/
inductive ReqwestBackoffError where
  | reqwest (e : Nat)
  | other (msg : String)
  | backoffExceeded (backoff_attempts : Nat)
  deriving DecidableEq, Repr

/-- Outcome of running a fallible piece of the crate: a value, a structured
`ReqwestBackoffError`, or abnormal termination with an abort message. -/
inductive RunResult (α : Type) where
  | ok (a : α)
  | err (e : ReqwestBackoffError)
  | panicked (msg : String)
  deriving DecidableEq, Repr

/-- Abort message of `Option::unwrap` on `None`. -/
def UNWRAP_NONE_MSG : String := "called Option::unwrap() on a None value"

/-- Abort message of a `u64` multiplication overflow inside `u64::pow`. -/
def POW_OVERFLOW_MSG : String := "attempt to multiply with overflow"

/-- `url::Host`: a domain string, an IPv4 address or an IPv6 address
(addresses abstracted to `Nat`; the crate never inspects them). -/
inductive UrlHost where
  | Domain (s : String)
  | Ipv4 (addr : Nat)
  | Ipv6 (addr : Nat)
  deriving DecidableEq, Repr

/-- The part of `reqwest::Request` the crate inspects: the URL host (if any)
and whether `try_clone` succeeds. -/
structure Request where
  urlHost : Option UrlHost
  cloneable : Bool
  deriving DecidableEq, Repr

/-- The part of `reqwest::Response` the crate inspects: the status code
(`u16`) and the raw bytes of the `Ratelimit-Reset` header, when present. -/
structure Response where
  status : Nat
  ratelimitReset : Option (List Nat)
  deriving DecidableEq, Repr

/-- `Request::try_clone`: succeeds iff the request body is replayable
(modelled by the `cloneable` flag). -/
def Request.try_clone (r : Request) : Option Request :=
  if r.cloneable then some r else none

/-- `http::StatusCode::is_success`: `300 > code && code >= 200`. -/
def is_success (code : Nat) : Bool :=
  200 ≤ code && code < 300

/-- `get_host_from_request` (src/lib.rs:122-134): exact match of the URL's
domain host against the three known domains; anything else is `Other`. -/
def get_host_from_request (request : Request) : HostType :=
  match request.urlHost with
  | some (UrlHost.Domain domain) =>
    if domain = "twitch.tv" then HostType.Twitch
    else if domain = "google.com" then HostType.Google
    else if domain = "youtube.com" then HostType.Youtube
    else HostType.Other
  | _ => HostType.Other

/-- `is_backoff_limit_reached` (src/lib.rs:136-143). -/
def is_backoff_limit_reached (attempt : Nat) (host : HostType) : Bool :=
  match host with
  | HostType.Twitch => attempt > MAX_BACKOFF_ATTEMPTS_TWITCH
  | HostType.Google | HostType.Youtube => attempt > MAX_BACKOFF_ATTEMPTS_GOOGLE
  | HostType.Other => attempt > MAX_BACKOFF_ATTEMPTS

/-- `check_response_is_backoff` (src/lib.rs:145-165): successful statuses are
never a backoff signal; otherwise Twitch backs off exactly on 429, Google and
Youtube exactly on 403 or 400, and `Other` never. -/
def check_response_is_backoff (response : Response) (host : HostType) : Bool :=
  let code := response.status
  if is_success code then false
  else
    match host with
    | HostType.Twitch => code == 429
    | HostType.Google | HostType.Youtube =>
      if !(code == 403 || code == 400) then false else true
    | HostType.Other => false

/-- `http::HeaderValue::is_visible_ascii` byte predicate used by
`HeaderValue::to_str`: `b >= 32 && b < 127 || b == 9` (tab). -/
def is_visible_ascii (b : Nat) : Bool :=
  (32 ≤ b && b < 127) || b == 9

/-- `http::HeaderValue::to_str`: yields the header bytes as a string iff every
byte is visible ASCII, and fails otherwise. -/
def header_to_str (bytes : List Nat) : Option String :=
  if bytes.all is_visible_ascii then some (String.mk (bytes.map Char.ofNat))
  else none

/-- Display message of `http::header::ToStrError`. -/
def TO_STR_ERR_MSG : String := "failed to convert header to a str"

/-- The failure cases of `i64::from_str` (`str::parse::<i64>`). -/
inductive IntParseError where
  | empty
  | invalidDigit
  | posOverflow
  | negOverflow
  deriving DecidableEq, Repr

/-- Display messages of `std::num::ParseIntError`. -/
def int_parse_error_msg : IntParseError → String
  | IntParseError.empty => "cannot parse integer from empty string"
  | IntParseError.invalidDigit => "invalid digit found in string"
  | IntParseError.posOverflow => "number too large to fit in target type"
  | IntParseError.negOverflow => "number too small to fit in target type"

/-- `str::parse::<i64>` (`i64::from_str`): an optional leading `+` or `-`
sign followed by at least one ASCII digit, the value fitting in `i64`.
An empty string fails with `Empty`; a lone sign or any non-digit character
fails with `InvalidDigit`; out-of-range values fail with `PosOverflow` /
`NegOverflow`. -/
def parse_i64 (s : String) : Except IntParseError Int :=
  match s.toList with
  | [] => Except.error IntParseError.empty
  | c :: rest =>
    let neg := c = '-'
    let digits := if c = '-' ∨ c = '+' then rest else c :: rest
    if digits.isEmpty then Except.error IntParseError.invalidDigit
    else if digits.all Char.isDigit then
      let n : Nat := digits.foldl (fun a ch => a * 10 + (ch.toNat - 48)) 0
      if neg then
        if (n : Int) > 2 ^ 63 then Except.error IntParseError.negOverflow
        else Except.ok (-(n : Int))
      else
        if (n : Int) ≥ 2 ^ 63 then Except.error IntParseError.posOverflow
        else Except.ok (n : Int)
    else Except.error IntParseError.invalidDigit

/-- Smallest timestamp accepted by `chrono::NaiveDateTime::from_timestamp_opt`
(seconds of `-262144-01-01T00:00:00`, the first instant of
`NaiveDateTime::MIN`'s year range in the proleptic Gregorian calendar). -/
def NAIVE_DATE_TIME_MIN_TS : Int := -8334632851200

/-- Largest timestamp accepted by `chrono::NaiveDateTime::from_timestamp_opt`
(seconds of `262143-12-31T23:59:59`, the last second of
`NaiveDateTime::MAX`'s day). -/
def NAIVE_DATE_TIME_MAX_TS : Int := 8210298412799

/-- `chrono::NaiveDateTime::from_timestamp_opt(ts, 0)` succeeds iff `ts` lies
in the representable range. -/
def from_timestamp_opt_some (ts : Int) : Bool :=
  decide (NAIVE_DATE_TIME_MIN_TS ≤ ts) && decide (ts ≤ NAIVE_DATE_TIME_MAX_TS)

/-- Message of the error built at src/lib.rs:205. -/
def TIMESTAMP_CONVERT_ERR_MSG : String := "Could not convert the provided timestamp"

/-- `get_twitch_rate_limit_value` (src/lib.rs:193-208): look up the
`Ratelimit-Reset` header and `unwrap()` it (aborting when absent), convert the
bytes to a string (`to_str`, mapped into `ReqwestBackoffError::Other`), parse
an `i64` (mapped into `Other`), and validate it as a timestamp via
`NaiveDateTime::from_timestamp_opt` (`Other` on failure).  The resulting
`DateTime<Utc>` is represented by its Unix second count. -/
def get_twitch_rate_limit_value (response : Response) : RunResult Int :=
  match response.ratelimitReset with
  | none => RunResult.panicked UNWRAP_NONE_MSG
  | some bytes =>
    match header_to_str bytes with
    | none => RunResult.err (ReqwestBackoffError.other TO_STR_ERR_MSG)
    | some s =>
      match parse_i64 s with
      | Except.error e => RunResult.err (ReqwestBackoffError.other (int_parse_error_msg e))
      | Except.ok ts =>
        if from_timestamp_opt_some ts then RunResult.ok ts
        else RunResult.err (ReqwestBackoffError.other TIMESTAMP_CONVERT_ERR_MSG)

/-- `u64::pow` with base `b` and exponent `e`: produces `b ^ e` when it fits
in a `u64`; on overflow it does not produce a value (abort in debug builds,
wrapped garbage in release builds), modelled as the overflow abort. -/
def u64_checked_pow (b e : Nat) : RunResult Nat :=
  if b ^ e < 2 ^ 64 then RunResult.ok (b ^ e)
  else RunResult.panicked POW_OVERFLOW_MSG

/-- `get_backoff_time` (src/lib.rs:167-191).  For Twitch: read the reset
timestamp, compute `now - timestamp` (note the orientation: the source
subtracts the header timestamp FROM the current time), truncate to whole
seconds (`num_seconds`, exact at second granularity) and cast `i64 -> u64`
(two's-complement, i.e. reduction mod `2 ^ 64`); return it if positive, else 1.
For Google/Youtube: `GOOGLE_BASE_BACKOFF_TIME_S.pow(attempt)` capped at
`GOOGLE_MAX_BACKOFF_TIME_S`.  For `Other`: 5. -/
def get_backoff_time (response : Response) (host : HostType) (attempt : Nat)
    (now : Int) : RunResult Nat :=
  match host with
  | HostType.Twitch =>
    match get_twitch_rate_limit_value response with
    | RunResult.panicked m => RunResult.panicked m
    | RunResult.err e => RunResult.err e
    | RunResult.ok timestamp =>
      let duration : Int := now - timestamp
      let duration : Nat := (duration % (2 ^ 64 : Int)).toNat
      if duration > 0 then RunResult.ok duration else RunResult.ok 1
  | HostType.Google | HostType.Youtube =>
    match u64_checked_pow GOOGLE_BASE_BACKOFF_TIME_S attempt with
    | RunResult.panicked m => RunResult.panicked m
    | RunResult.err e => RunResult.err e
    | RunResult.ok backoff_time =>
      if backoff_time > GOOGLE_MAX_BACKOFF_TIME_S then
        RunResult.ok GOOGLE_MAX_BACKOFF_TIME_S
      else RunResult.ok backoff_time
  | HostType.Other => RunResult.ok 5

/-- Terminal outcome of one call of the executor: a response handed back to
the caller, a structured error, or abnormal termination. -/
inductive Outcome where
  | ok (r : Response)
  | err (e : ReqwestBackoffError)
  | panicked (msg : String)
  deriving DecidableEq, Repr

/-- Observable trace of one call of the executor: how many times the request
was executed, the sequence of sleep durations (seconds, in order), and the
terminal outcome. -/
structure LoopTrace where
  executions : Nat
  sleeps : List Nat
  outcome : Outcome
  deriving DecidableEq, Repr

/-- The `while check_response_is_backoff` loop of `execute_with_backoff_inner`
(src/lib.rs:101-118), entered after the first execution already produced
`response`.  `attempt` is the loop counter (1 on entry), `execs` the number of
executions performed so far and `sleeps` the sleeps performed so far (trace
accumulators).  One iteration: if the response is a backoff signal, first
check the attempt limit (returning `BackoffExceeded` with the current attempt
count when reached), then compute the backoff time (propagating its error via
`?`), sleep, increment the counter, and re-execute the request through the
oracle `env` (propagating transport errors via `?`). -/
def loopGo (env : Nat → Except Nat Response) (clock : Nat → Int)
    (host : HostType) (attempt : Nat) (response : Response) (execs : Nat)
    (sleeps : List Nat) : LoopTrace :=
  if check_response_is_backoff response host then
    if hl : is_backoff_limit_reached attempt host then
      ⟨execs, sleeps, Outcome.err (ReqwestBackoffError.backoffExceeded attempt)⟩
    else
      match get_backoff_time response host attempt (clock attempt) with
      | RunResult.err e => ⟨execs, sleeps, Outcome.err e⟩
      | RunResult.panicked m => ⟨execs, sleeps, Outcome.panicked m⟩
      | RunResult.ok d =>
        match env (execs + 1) with
        | Except.error e =>
          ⟨execs + 1, sleeps ++ [d], Outcome.err (ReqwestBackoffError.reqwest e)⟩
        | Except.ok r2 => loopGo env clock host (attempt + 1) r2 (execs + 1) (sleeps ++ [d])
  else ⟨execs, sleeps, Outcome.ok response⟩
termination_by 51 - attempt
decreasing_by
  cases host <;>
    simp [is_backoff_limit_reached, MAX_BACKOFF_ATTEMPTS, MAX_BACKOFF_ATTEMPTS_GOOGLE,
      MAX_BACKOFF_ATTEMPTS_TWITCH] at hl <;>
    omega

/-- `execute_with_backoff_inner` (src/lib.rs:91-119): `attempt` starts at 1,
the request is executed once up front (its `try_clone().unwrap()` aborts when
the request is not cloneable, transport errors propagate via `?`), then the
backoff loop runs. -/
def execute_with_backoff_inner (env : Nat → Except Nat Response)
    (clock : Nat → Int) (request : Request) (host : HostType) : LoopTrace :=
  match request.try_clone with
  | none => ⟨0, [], Outcome.panicked UNWRAP_NONE_MSG⟩
  | some _ =>
    match env 1 with
    | Except.error e => ⟨1, [], Outcome.err (ReqwestBackoffError.reqwest e)⟩
    | Except.ok response => loopGo env clock host 1 response 1 []

/-- `execute_with_backoff` (src/lib.rs:67-82): classify the host once, try to
clone the request; with a clone, run the inner retry loop; without one, warn
and execute the original request exactly once, surfacing only its transport
result (the response is returned as-is, throttle-shaped or not). -/
def execute_with_backoff (env : Nat → Except Nat Response) (clock : Nat → Int)
    (request : Request) : LoopTrace :=
  let host : HostType := get_host_from_request request
  match request.try_clone with
  | some request_clone => execute_with_backoff_inner env clock request_clone host
  | none =>
    match env 1 with
    | Except.error e => ⟨1, [], Outcome.err (ReqwestBackoffError.reqwest e)⟩
    | Except.ok r => ⟨1, [], Outcome.ok r⟩

/-- ASCII bytes of a string (used to build concrete header values). -/
def asciiBytes (s : String) : List Nat := s.toList.map Char.toNat

/-- A response with status 403 and no `Ratelimit-Reset` header. -/
def respPlain403 : Response := ⟨403, none⟩

/-- A 429 response whose `Ratelimit-Reset` header holds the given text. -/
def resp429WithReset (s : String) : Response := ⟨429, some (asciiBytes s)⟩

/-- A 429 response with no `Ratelimit-Reset` header. -/
def resp429NoReset : Response := ⟨429, none⟩

/-- A cloneable request aimed at `google.com`. -/
def reqGoogle : Request := ⟨some (UrlHost.Domain "google.com"), true⟩

/-- A cloneable request aimed at `twitch.tv`. -/
def reqTwitch : Request := ⟨some (UrlHost.Domain "twitch.tv"), true⟩

/-- A non-cloneable (streaming-body) request aimed at `twitch.tv`. -/
def reqTwitchStream : Request := ⟨some (UrlHost.Domain "twitch.tv"), false⟩

/-- A cloneable request whose URL host is an IPv4 address. -/
def reqIpHost : Request := ⟨some (UrlHost.Ipv4 0), true⟩

/-- The transport oracle that always yields the same response. -/
def envConst (r : Response) : Nat → Except Nat Response := fun _ => Except.ok r

/-- A response with status 500 and no `Ratelimit-Reset` header. -/
def respPlain500 : Response := ⟨500, none⟩

/-- A 429 response whose `Ratelimit-Reset` header holds the non-numeric text
`soon`. -/
def resp429BadReset : Response := ⟨429, some (asciiBytes "soon")⟩

/-- Claim C3: for every response and policy, `check_response_is_backoff`
returns `true` iff the status is not a success status and either the policy is
Twitch with status exactly 429, or the policy is Google or Youtube with status
exactly 400 or 403; consequently successful statuses are never a backoff
signal under any policy, and under Twitch every non-429 status yields
`false`. -/
theorem C3_throttle_detector :
    ∀ (r : Response) (host : HostType),
      check_response_is_backoff r host = true ↔
        (is_success r.status = false ∧
          ((host = HostType.Twitch ∧ r.status = 429) ∨
           ((host = HostType.Google ∨ host = HostType.Youtube) ∧
             (r.status = 400 ∨ r.status = 403)))) := by
  intro r host
  by_cases hs : is_success r.status = true <;>
    cases host <;>
    simp [check_response_is_backoff, hs] <;>
    simp at hs <;>
    tauto

/-- Claim C6: for every policy, `is_backoff_limit_reached` is `false` for
every attempt count at most 50 and `true` for every attempt count at least
51. -/
theorem C6_attempt_limiter :
    ∀ (attempt : Nat) (host : HostType),
      (attempt ≤ 50 → is_backoff_limit_reached attempt host = false) ∧
      (51 ≤ attempt → is_backoff_limit_reached attempt host = true) := by
  intro a host
  cases host <;>
    simp [is_backoff_limit_reached, MAX_BACKOFF_ATTEMPTS, MAX_BACKOFF_ATTEMPTS_GOOGLE,
      MAX_BACKOFF_ATTEMPTS_TWITCH] <;>
    omega

/-- Witness for C6 at the boundary: attempt 50 does not reach the limit,
attempt 51 does (Twitch policy). -/
theorem C6_attempt_limiter_witness :
    is_backoff_limit_reached 50 HostType.Twitch = false ∧
    is_backoff_limit_reached 51 HostType.Twitch = true :=
  ⟨(C6_attempt_limiter 50 HostType.Twitch).1 (by decide),
   (C6_attempt_limiter 51 HostType.Twitch).2 (by decide)⟩

/-- Claim C9: the host classifier is total and pure: it yields `Twitch`,
`Google`, `Youtube` exactly for the domain hosts `twitch.tv`, `google.com`,
`youtube.com` respectively, and `Other` for everything else — IPv4 or IPv6
hosts, absent hosts, and any other domain, subdomains such as
`api.twitch.tv` included. -/
theorem C9_host_classifier :
    (∀ req : Request,
      (get_host_from_request req = HostType.Twitch ↔
        req.urlHost = some (UrlHost.Domain "twitch.tv")) ∧
      (get_host_from_request req = HostType.Google ↔
        req.urlHost = some (UrlHost.Domain "google.com")) ∧
      (get_host_from_request req = HostType.Youtube ↔
        req.urlHost = some (UrlHost.Domain "youtube.com"))) ∧
    (∀ (addr : Nat) (c : Bool),
      get_host_from_request ⟨some (UrlHost.Ipv4 addr), c⟩ = HostType.Other) ∧
    (∀ (addr : Nat) (c : Bool),
      get_host_from_request ⟨some (UrlHost.Ipv6 addr), c⟩ = HostType.Other) ∧
    (∀ c : Bool, get_host_from_request ⟨none, c⟩ = HostType.Other) ∧
    (∀ c : Bool,
      get_host_from_request ⟨some (UrlHost.Domain "api.twitch.tv"), c⟩ = HostType.Other) := by
  refine ⟨?_, fun addr c => rfl, fun addr c => rfl, fun c => rfl, fun c => ?_⟩
  · intro req
    obtain ⟨u, c⟩ := req
    cases u with
    | none => simp [get_host_from_request]
    | some h =>
      cases h with
      | Domain s =>
        simp only [get_host_from_request]
        split_ifs <;> simp_all
      | Ipv4 a => simp [get_host_from_request]
      | Ipv6 a => simp [get_host_from_request]
  · simp [get_host_from_request]

/-- Shared helper: for an attempt count at most 63 the Google/Youtube branch
of `get_backoff_time` cannot overflow and yields exactly
`min (2 ^ attempt) 3600`. -/
theorem google_backoff_eq_min (r : Response) (host : HostType) (n : Nat) (now : Int)
    (hhost : host = HostType.Google ∨ host = HostType.Youtube) (h63 : n ≤ 63) :
    get_backoff_time r host n now = RunResult.ok (min (2 ^ n) 3600) := by
  have hpow : 2 ^ n < 2 ^ 64 := by
    calc 2 ^ n ≤ 2 ^ 63 := Nat.pow_le_pow_right (by omega) h63
    _ < 2 ^ 64 := by norm_num
  rcases hhost with h | h <;> subst h <;>
    simp only [get_backoff_time, u64_checked_pow, GOOGLE_BASE_BACKOFF_TIME_S,
      GOOGLE_MAX_BACKOFF_TIME_S, if_pos hpow] <;>
    split_ifs with hc <;>
    simp only [RunResult.ok.injEq] <;>
    omega

/-- Claim C5 (amended): for every attempt `n` with `1 ≤ n ≤ 63` — which
covers every attempt the retry loop can reach, since the limiter caps
attempts at 50 — the Google/Youtube backoff is exactly `min (2 ^ n) 3600`
seconds: 2 at attempt 1, 32 at attempt 5, 3600 from attempt 12 on.  (For
`n ≥ 64` the `u64` power overflows instead of producing the capped value; see
the counterexample.) -/
theorem C5_google_backoff (r : Response) (host : HostType) (n : Nat) (now : Int)
    (hhost : host = HostType.Google ∨ host = HostType.Youtube)
    (h1 : 1 ≤ n) (h63 : n ≤ 63) :
    get_backoff_time r host n now = RunResult.ok (min (2 ^ n) 3600) :=
  google_backoff_eq_min r host n now hhost h63

/-- Witness for C5 at attempt 5: the Google backoff is `min (2 ^ 5) 3600 = 32`
seconds. -/
theorem C5_google_backoff_witness :
    get_backoff_time respPlain403 HostType.Google 5 0 = RunResult.ok (min (2 ^ 5) 3600) :=
  C5_google_backoff respPlain403 HostType.Google 5 0 (Or.inl rfl) (by decide) (by decide)

/-- Counterexample to C5 as stated: at attempt 64 the computation
`GOOGLE_BASE_BACKOFF_TIME_S.pow(attempt)` overflows `u64` (abort in debug
builds, wrap-around in release builds), so the calculator does not return
`min (2 ^ 64) 3600 = 3600`. -/
theorem C5_counterexample :
    get_backoff_time respPlain403 HostType.Google 64 0 = RunResult.panicked POW_OVERFLOW_MSG ∧
    get_backoff_time respPlain403 HostType.Google 64 0 ≠ RunResult.ok (min (2 ^ 64) 3600) := by
  constructor
  · rfl
  · decide

/-- Claim C1 (code bug): the Twitch backoff subtracts in the wrong direction.
With the clock at 1000 s and a valid `Ratelimit-Reset` of 1010 (10 s in the
future) the code computes `(1000 - 1010) as u64 = 2 ^ 64 - 10` and sleeps
18446744073709551606 seconds instead of the specified
`max 1 (1010 - 1000) = 10`; with a reset of 990 (10 s in the past) it sleeps
10 seconds instead of the specified `max 1 (990 - 1000) = 1`. -/
theorem C1_twitch_backoff_sign_bug :
    (get_backoff_time (resp429WithReset "1010") HostType.Twitch 1 1000 =
        RunResult.ok 18446744073709551606 ∧
      (18446744073709551606 : Int) ≠ max 1 (1010 - 1000)) ∧
    (get_backoff_time (resp429WithReset "990") HostType.Twitch 1 1000 =
        RunResult.ok 10 ∧
      (10 : Int) ≠ max 1 (990 - 1000)) := by
  refine ⟨⟨by decide, by decide⟩, ⟨by decide, by decide⟩⟩

/-- Counterexample to C2 as stated: a Twitch-classified throttled response
with no `Ratelimit-Reset` header at all makes `get_twitch_rate_limit_value`
abort (`unwrap()` on `None`) rather than return a structured error, and the
retry loop aborts with it. -/
theorem C2_counterexample :
    get_twitch_rate_limit_value resp429NoReset = RunResult.panicked UNWRAP_NONE_MSG ∧
    get_backoff_time resp429NoReset HostType.Twitch 1 1000 =
      RunResult.panicked UNWRAP_NONE_MSG ∧
    execute_with_backoff (envConst resp429NoReset) (fun _ => 1000) reqTwitch =
      ⟨1, [], Outcome.panicked UNWRAP_NONE_MSG⟩ := by
  refine ⟨rfl, rfl, ?_⟩
  show execute_with_backoff_inner (envConst resp429NoReset) (fun _ => 1000) reqTwitch
      HostType.Twitch = ⟨1, [], Outcome.panicked UNWRAP_NONE_MSG⟩
  show loopGo (envConst resp429NoReset) (fun _ => 1000) HostType.Twitch 1 resp429NoReset 1 [] =
      ⟨1, [], Outcome.panicked UNWRAP_NONE_MSG⟩
  rw [loopGo]
  rfl

/-- Shared helper: the limiter fires exactly on attempt counts of 51 and
above, for every policy. -/
theorem limit_reached_iff (attempt : Nat) (host : HostType) :
    is_backoff_limit_reached attempt host = true ↔ 51 ≤ attempt := by
  cases host <;>
    simp [is_backoff_limit_reached, MAX_BACKOFF_ATTEMPTS, MAX_BACKOFF_ATTEMPTS_GOOGLE,
      MAX_BACKOFF_ATTEMPTS_TWITCH] <;>
    omega

/-- Shared helper: a limiter check that passed bounds the attempt count by
50. -/
theorem limit_not_reached_le (attempt : Nat) (host : HostType)
    (h : is_backoff_limit_reached attempt host = false) : attempt ≤ 50 := by
  cases host <;>
    simp [is_backoff_limit_reached, MAX_BACKOFF_ATTEMPTS, MAX_BACKOFF_ATTEMPTS_GOOGLE,
      MAX_BACKOFF_ATTEMPTS_TWITCH] at h <;>
    omega

/-- Shared helper: the detector never fires for the `Other` policy. -/
theorem check_other_false (r : Response) :
    check_response_is_backoff r HostType.Other = false := by
  by_cases hs : is_success r.status = true <;> simp [check_response_is_backoff, hs]

/-- Claim C7: a request that cannot be duplicated (`try_clone` yields `None`)
is executed exactly once, with no sleeping and no retry loop, and the result
is the raw transport result: the response as-is (throttle-shaped or not) or
the transport error. -/
theorem C7_nonreplayable (req : Request) (env : Nat → Except Nat Response)
    (clock : Nat → Int) (h : req.cloneable = false) :
    (execute_with_backoff env clock req).executions = 1 ∧
    (execute_with_backoff env clock req).sleeps = [] ∧
    (execute_with_backoff env clock req).outcome =
      (match env 1 with
       | Except.ok r => Outcome.ok r
       | Except.error e => Outcome.err (ReqwestBackoffError.reqwest e)) := by
  have ht : req.try_clone = none := by simp [Request.try_clone, h]
  simp only [execute_with_backoff, ht]
  cases henv : env 1 <;> simp

/-- Witness for C7: a non-cloneable request to `twitch.tv` whose one response
is a throttle-shaped 429 is executed once and that 429 is returned as-is. -/
theorem C7_nonreplayable_witness :
    (execute_with_backoff (envConst resp429NoReset) (fun _ => 0) reqTwitchStream).executions = 1 ∧
    (execute_with_backoff (envConst resp429NoReset) (fun _ => 0) reqTwitchStream).sleeps = [] ∧
    (execute_with_backoff (envConst resp429NoReset) (fun _ => 0) reqTwitchStream).outcome =
      (match envConst resp429NoReset 1 with
       | Except.ok r => Outcome.ok r
       | Except.error e => Outcome.err (ReqwestBackoffError.reqwest e)) :=
  C7_nonreplayable reqTwitchStream (envConst resp429NoReset) (fun _ => 0) rfl

/-- Claim C8: for a request classified as `Other`, the detector rejects every
response, so the loop neither sleeps nor re-executes: the first response is
returned unmodified after exactly one execution. -/
theorem C8_other_passthrough (req : Request) (env : Nat → Except Nat Response)
    (clock : Nat → Int) (r : Response)
    (hhost : get_host_from_request req = HostType.Other)
    (hclone : req.cloneable = true)
    (henv : env 1 = Except.ok r) :
    (∀ r2 : Response, check_response_is_backoff r2 HostType.Other = false) ∧
    execute_with_backoff env clock req = ⟨1, [], Outcome.ok r⟩ := by
  refine ⟨check_other_false, ?_⟩
  have ht : req.try_clone = some req := by simp [Request.try_clone, hclone]
  simp only [execute_with_backoff, ht, hhost, execute_with_backoff_inner, henv]
  rw [loopGo]
  simp [check_other_false]

/-- Witness for C8: a request to an IPv4 host whose first response is a 500
passes that 500 straight through after one execution. -/
theorem C8_other_passthrough_witness :
    (∀ r2 : Response, check_response_is_backoff r2 HostType.Other = false) ∧
    execute_with_backoff (envConst respPlain500) (fun _ => 0) reqIpHost =
      ⟨1, [], Outcome.ok respPlain500⟩ :=
  C8_other_passthrough reqIpHost (envConst respPlain500) (fun _ => 0) respPlain500
    rfl rfl rfl

/-- Claim C2 (amended): for a Twitch-classified throttled response whose
`Ratelimit-Reset` header is present but either not a visible-ASCII string,
non-numeric, or an invalid timestamp, the backoff computation returns a
structured `ReqwestBackoffError.other` error and the retry loop propagates it
immediately as its terminal result, with exactly one execution and no sleep.
(When the header is absent entirely, the code instead aborts; see the
counterexample.) -/
theorem C2_metadata_error (req : Request) (env : Nat → Except Nat Response)
    (clock : Nat → Int) (r : Response) (bytes : List Nat)
    (hhost : get_host_from_request req = HostType.Twitch)
    (hclone : req.cloneable = true)
    (henv : env 1 = Except.ok r)
    (hthr : check_response_is_backoff r HostType.Twitch = true)
    (hhdr : r.ratelimitReset = some bytes)
    (hbad : header_to_str bytes = none ∨
      (∃ s, header_to_str bytes = some s ∧ ∃ pe, parse_i64 s = Except.error pe) ∨
      (∃ s ts, header_to_str bytes = some s ∧ parse_i64 s = Except.ok ts ∧
        from_timestamp_opt_some ts = false)) :
    ∃ m, get_backoff_time r HostType.Twitch 1 (clock 1) =
        RunResult.err (ReqwestBackoffError.other m) ∧
      execute_with_backoff env clock req =
        ⟨1, [], Outcome.err (ReqwestBackoffError.other m)⟩ := by
  have hval : ∃ m, get_twitch_rate_limit_value r =
      RunResult.err (ReqwestBackoffError.other m) := by
    rcases hbad with hb | ⟨s, hs, pe, hpe⟩ | ⟨s, ts, hs, hts, hinv⟩
    · exact ⟨TO_STR_ERR_MSG, by simp [get_twitch_rate_limit_value, hhdr, hb]⟩
    · exact ⟨int_parse_error_msg pe, by simp [get_twitch_rate_limit_value, hhdr, hs, hpe]⟩
    · exact ⟨TIMESTAMP_CONVERT_ERR_MSG,
        by simp [get_twitch_rate_limit_value, hhdr, hs, hts, hinv]⟩
  obtain ⟨m, hm⟩ := hval
  have hbt : get_backoff_time r HostType.Twitch 1 (clock 1) =
      RunResult.err (ReqwestBackoffError.other m) := by
    simp [get_backoff_time, hm]
  refine ⟨m, hbt, ?_⟩
  have ht : req.try_clone = some req := by simp [Request.try_clone, hclone]
  have hlim : is_backoff_limit_reached 1 HostType.Twitch = false := by decide
  simp only [execute_with_backoff, ht, hhost, execute_with_backoff_inner, henv]
  rw [loopGo]
  simp [hthr, hlim, hbt]

/-- Witness for C2: a 429 Twitch response whose `Ratelimit-Reset` header reads
`soon` makes the loop stop after one execution with a structured error. -/
theorem C2_metadata_error_witness :
    ∃ m, get_backoff_time resp429BadReset HostType.Twitch 1 ((fun _ => (1000 : Int)) 1) =
        RunResult.err (ReqwestBackoffError.other m) ∧
      execute_with_backoff (envConst resp429BadReset) (fun _ => (1000 : Int)) reqTwitch =
        ⟨1, [], Outcome.err (ReqwestBackoffError.other m)⟩ :=
  C2_metadata_error reqTwitch (envConst resp429BadReset) (fun _ => (1000 : Int))
    resp429BadReset (asciiBytes "soon") (by decide) rfl rfl (by decide) rfl
    (Or.inr (Or.inl ⟨"soon", by decide, IntParseError.invalidDigit, rfl⟩))

/-- Shared helper: from any loop state with a Google- or Youtube-classified
host, a throttled current response, `attempt + k = 51`, and a transport oracle
that keeps producing throttled responses, the loop performs exactly `k` more
sleeps and `k` more executions and then fails with `BackoffExceeded 51`. -/
theorem loopGo_google_throttled (env : Nat → Except Nat Response) (clock : Nat → Int)
    (host : HostType) (hhost : host = HostType.Google ∨ host = HostType.Youtube)
    (henv : ∀ i, ∃ r, env i = Except.ok r ∧ check_response_is_backoff r host = true) :
    ∀ (k attempt : Nat) (r : Response) (execs : Nat) (sleeps : List Nat),
      attempt + k = 51 →
      check_response_is_backoff r host = true →
      ∃ tail : List Nat, tail.length = k ∧
        loopGo env clock host attempt r execs sleeps =
          ⟨execs + k, sleeps ++ tail, Outcome.err (ReqwestBackoffError.backoffExceeded 51)⟩ := by
  intro k
  induction k with
  | zero =>
    intro attempt r execs sleeps hk hthr
    have ha : attempt = 51 := by omega
    subst ha
    have hlim : is_backoff_limit_reached 51 host = true := (limit_reached_iff 51 host).2 (by omega)
    refine ⟨[], rfl, ?_⟩
    rw [loopGo]
    simp [hthr, hlim]
  | succ k ih =>
    intro attempt r execs sleeps hk hthr
    have hle : attempt ≤ 50 := by omega
    have hlim : is_backoff_limit_reached attempt host = false := by
      cases hx : is_backoff_limit_reached attempt host
      · rfl
      · exact absurd ((limit_reached_iff attempt host).1 hx) (by omega)
    have hbt : get_backoff_time r host attempt (clock attempt) =
        RunResult.ok (min (2 ^ attempt) 3600) :=
      google_backoff_eq_min r host attempt (clock attempt) hhost (by omega)
    obtain ⟨r2, hr2, hthr2⟩ := henv (execs + 1)
    obtain ⟨tail, hlen, heq⟩ := ih (attempt + 1) r2 (execs + 1) (sleeps ++ [min (2 ^ attempt) 3600])
      (by omega) hthr2
    refine ⟨min (2 ^ attempt) 3600 :: tail, by simp [hlen], ?_⟩
    rw [loopGo]
    simp only [hthr, hlim, hbt, hr2, if_true, dif_neg (by simp : ¬ False)]
    simp only [Bool.false_eq_true, dite_false, if_pos rfl]
    rw [heq]
    simp only [LoopTrace.mk.injEq]
    exact ⟨by omega, by simp, trivial⟩

/-- Claim C4: if every response of a Google-classified host is
throttle-shaped, the executor runs the request exactly 51 times and
terminates with `BackoffExceeded` carrying attempt count 51; it sleeps only
50 times, i.e. the attempt that exceeds the cap fails fast without sleeping,
and there is no 52nd execution. -/
theorem C4_google_exhaustion (req : Request) (env : Nat → Except Nat Response)
    (clock : Nat → Int)
    (hhost : get_host_from_request req = HostType.Google)
    (hclone : req.cloneable = true)
    (henv : ∀ i, ∃ r, env i = Except.ok r ∧
      check_response_is_backoff r HostType.Google = true) :
    (execute_with_backoff env clock req).executions = 51 ∧
    (execute_with_backoff env clock req).outcome =
      Outcome.err (ReqwestBackoffError.backoffExceeded 51) ∧
    (execute_with_backoff env clock req).sleeps.length = 50 := by
  have ht : req.try_clone = some req := by simp [Request.try_clone, hclone]
  obtain ⟨r1, hr1, hthr1⟩ := henv 1
  obtain ⟨tail, hlen, heq⟩ := loopGo_google_throttled env clock HostType.Google (Or.inl rfl)
    henv 50 1 r1 1 [] (by omega) hthr1
  simp only [execute_with_backoff, ht, hhost, execute_with_backoff_inner, hr1, heq]
  simp [hlen]

/-- Witness for C4: the constant all-403 oracle against `google.com` yields
51 executions, `BackoffExceeded 51`, and 50 sleeps. -/
theorem C4_google_exhaustion_witness :
    (execute_with_backoff (envConst respPlain403) (fun _ => 0) reqGoogle).executions = 51 ∧
    (execute_with_backoff (envConst respPlain403) (fun _ => 0) reqGoogle).outcome =
      Outcome.err (ReqwestBackoffError.backoffExceeded 51) ∧
    (execute_with_backoff (envConst respPlain403) (fun _ => 0) reqGoogle).sleeps.length = 50 :=
  C4_google_exhaustion reqGoogle (envConst respPlain403) (fun _ => 0) (by decide) rfl
    (fun i => ⟨respPlain403, rfl, by decide⟩)

/-- Shared helper: the only abnormal termination of
`get_twitch_rate_limit_value` is the `unwrap()` of an absent header. -/
theorem twitch_value_panic_msg (r : Response) (m : String)
    (h : get_twitch_rate_limit_value r = RunResult.panicked m) : m = UNWRAP_NONE_MSG := by
  unfold get_twitch_rate_limit_value at h
  cases hr : r.ratelimitReset with
  | none =>
    simp only [hr] at h
    injection h with h2
    exact h2.symm
  | some bytes =>
    simp only [hr] at h
    cases hs : header_to_str bytes with
    | none => simp [hs] at h
    | some s =>
      simp only [hs] at h
      cases hp : parse_i64 s with
      | error e => simp [hp] at h
      | ok ts =>
        simp only [hp] at h
        split at h <;> cases h

/-- Shared helper: for attempt counts at most 63 the backoff calculator can
abort only through the Twitch header `unwrap()`, never through the `u64`
power: any abort message it produces is the unwrap message. -/
theorem backoff_time_panic_msg (r : Response) (host : HostType) (attempt : Nat)
    (now : Int) (m : String) (h63 : attempt ≤ 63)
    (h : get_backoff_time r host attempt now = RunResult.panicked m) :
    m = UNWRAP_NONE_MSG := by
  have hpow : GOOGLE_BASE_BACKOFF_TIME_S ^ attempt < 2 ^ 64 := by
    calc GOOGLE_BASE_BACKOFF_TIME_S ^ attempt ≤ 2 ^ 63 :=
      Nat.pow_le_pow_right (by norm_num [GOOGLE_BASE_BACKOFF_TIME_S]) h63
    _ < 2 ^ 64 := by norm_num
  cases host
  case Twitch =>
    simp only [get_backoff_time] at h
    cases hv : get_twitch_rate_limit_value r with
    | panicked m2 =>
      simp only [hv] at h
      injection h with h2
      exact h2 ▸ twitch_value_panic_msg r m2 hv
    | err e => simp [hv] at h
    | ok ts =>
      simp only [hv] at h
      split at h <;> cases h
  case Google =>
    simp only [get_backoff_time, u64_checked_pow, if_pos hpow] at h
    split at h <;> cases h
  case Youtube =>
    simp only [get_backoff_time, u64_checked_pow, if_pos hpow] at h
    split at h <;> cases h
  case Other => cases h

/-- Shared helper: the two abort messages differ. -/
theorem unwrap_msg_ne_pow_msg : UNWRAP_NONE_MSG ≠ POW_OVERFLOW_MSG := by decide

/-- Shared helper: from any loop state (any attempt count), the loop never
terminates with the power-overflow abort: the limiter check guards every
backoff computation, keeping the exponent at most 50. -/
theorem loopGo_no_pow_panic (env : Nat → Except Nat Response) (clock : Nat → Int)
    (host : HostType) :
    ∀ (k attempt : Nat) (r : Response) (execs : Nat) (sleeps : List Nat),
      51 ≤ attempt + k →
      (loopGo env clock host attempt r execs sleeps).outcome ≠
        Outcome.panicked POW_OVERFLOW_MSG := by
  intro k
  induction k with
  | zero =>
    intro attempt r execs sleeps hk
    have hlim : is_backoff_limit_reached attempt host = true :=
      (limit_reached_iff attempt host).2 (by omega)
    rw [loopGo]
    by_cases hc : check_response_is_backoff r host = true <;> simp [hc, hlim]
  | succ k ih =>
    intro attempt r execs sleeps hk
    rw [loopGo]
    by_cases hc : check_response_is_backoff r host = true
    case neg => simp [hc]
    case pos =>
      by_cases hlim : is_backoff_limit_reached attempt host = true
      case pos => simp [hc, hlim]
      case neg =>
        have hlim' : is_backoff_limit_reached attempt host = false := by
          cases hx : is_backoff_limit_reached attempt host
          · rfl
          · exact absurd hx hlim
        have hle : attempt ≤ 50 := limit_not_reached_le attempt host hlim'
        cases hbt : get_backoff_time r host attempt (clock attempt) with
        | err e => simp [hc, hlim', hbt]
        | panicked m =>
          have hm : m = UNWRAP_NONE_MSG :=
            backoff_time_panic_msg r host attempt (clock attempt) m (by omega) hbt
          simp [hc, hlim', hbt, hm, unwrap_msg_ne_pow_msg]
        | ok d =>
          cases henv : env (execs + 1) with
          | error e => simp [hc, hlim', hbt, henv]
          | ok r2 =>
            simp only [hc, hlim', hbt, henv, if_true, Bool.false_eq_true, dite_false]
            exact ih (attempt + 1) r2 (execs + 1) (sleeps ++ [d]) (by omega)

/-- Claim C10: whenever the retry loop invokes the backoff calculator the
limiter check has already passed, so the attempt count is at most 50 and the
Google/Youtube exponentiation `2 ^ attempt` fits in a `u64`: from any loop
state, and for any full `execute_with_backoff` call, the power computation in
`get_backoff_time` never overflows. -/
theorem C10_pow_never_overflows :
    ∀ (env : Nat → Except Nat Response) (clock : Nat → Int) (host : HostType)
      (attempt : Nat) (r : Response) (execs : Nat) (sleeps : List Nat) (req : Request),
      (is_backoff_limit_reached attempt host = false →
        GOOGLE_BASE_BACKOFF_TIME_S ^ attempt < 2 ^ 64) ∧
      (loopGo env clock host attempt r execs sleeps).outcome ≠
        Outcome.panicked POW_OVERFLOW_MSG ∧
      (execute_with_backoff env clock req).outcome ≠
        Outcome.panicked POW_OVERFLOW_MSG := by
  intro env clock host attempt r execs sleeps req
  refine ⟨?_, ?_, ?_⟩
  · intro hlim
    have hle : attempt ≤ 50 := limit_not_reached_le attempt host hlim
    calc GOOGLE_BASE_BACKOFF_TIME_S ^ attempt ≤ 2 ^ 50 :=
      Nat.pow_le_pow_right (by norm_num [GOOGLE_BASE_BACKOFF_TIME_S]) hle
    _ < 2 ^ 64 := by norm_num
  · exact loopGo_no_pow_panic env clock host 51 attempt r execs sleeps (by omega)
  · simp only [execute_with_backoff]
    cases ht : req.try_clone with
    | none => cases henv : env 1 <;> simp
    | some req2 =>
      simp only [execute_with_backoff_inner]
      cases ht2 : req2.try_clone with
      | none => simp [unwrap_msg_ne_pow_msg]
      | some req3 =>
        cases henv : env 1 with
        | error e => simp
        | ok r1 =>
          exact loopGo_no_pow_panic env clock (get_host_from_request req) 51 1 r1 1 []
            (by omega)

/-- Witness for C10: at the largest attempt count that passes the limiter the
power still fits in a `u64`, and the all-403 Google loop never aborts with the
overflow message. -/
theorem C10_pow_never_overflows_witness :
    GOOGLE_BASE_BACKOFF_TIME_S ^ 50 < 2 ^ 64 ∧
    (loopGo (envConst respPlain403) (fun _ => 0) HostType.Google 1 respPlain403 1 []).outcome ≠
      Outcome.panicked POW_OVERFLOW_MSG :=
  ⟨(C10_pow_never_overflows (envConst respPlain403) (fun _ => 0) HostType.Google 50
      respPlain403 1 [] reqGoogle).1 (by decide),
   (C10_pow_never_overflows (envConst respPlain403) (fun _ => 0) HostType.Google 1
      respPlain403 1 [] reqGoogle).2.1⟩

end ReqwestBackoff
